import Mathlib

/-!
Shallow embedding of the GUI-PORTFOLIO core simulation loop:
InputManager (src/js/engine/Camera.js, second class in the file),
Camera (src/js/engine/Camera.js), CollisionSystem (src/unnamed/part_008,
CollisionSystem.js) and Player (src/js/entities/Player.js).

Numbers are embedded as rationals; JS objects used as string-keyed maps
(`keys`, `justPressed`) are embedded as total functions `String → Bool`
defaulting to `false` (reading a missing property is falsy). Callback
fields (`onJump`, `onLand`, `onStep`) are embedded as event logs: counters
for jump/land and a list of the `isSprinting` arguments passed to
`onStep`. Render-only randomized particle lists (`dustParticles`,
`sprintTrails`) and the canvas rendering code are not modelled; no claim
touches them. `Math.random()` inputs of `Camera.update` are passed
explicitly as arguments in `[0, 1]`.
-/

namespace Portfolio

/-- Logical key identifiers (the source lowercases `e.key` before use;
the embedding works with the lowercased identifiers directly). -/
def keyArrowLeft : String := "arrowleft"

def keyArrowRight : String := "arrowright"

def keyArrowUp : String := "arrowup"

def keyA : String := "a"

def keyD : String := "d"

def keyW : String := "w"

def keyE : String := "e"

def keyT : String := "t"

def keySpace : String := " "

def keyShift : String := "shift"

def keyEscape : String := "escape"

/-- State of InputManager (src/js/engine/Camera.js lines 118-137). -/
structure InputManager where
  keys : String → Bool
  justPressed : String → Bool
  isMobile : Bool
  mobileLeft : Bool
  mobileRight : Bool
  mobileInteract : Bool
  mobileSprint : Bool
  mobileJump : Bool

/-- Constructor state: empty maps, all flags false. -/
def InputManager.init : InputManager :=
  { keys := fun _ => false
    justPressed := fun _ => false
    isMobile := false
    mobileLeft := false
    mobileRight := false
    mobileInteract := false
    mobileSprint := false
    mobileJump := false }

/-- `_clearAllKeys` (Camera.js lines 163-171). -/
def InputManager.clearAllKeys (s : InputManager) : InputManager :=
  { s with
    keys := fun _ => false
    justPressed := fun _ => false
    mobileLeft := false
    mobileRight := false
    mobileInteract := false
    mobileSprint := false
    mobileJump := false }

/-- The window `blur` handler calls `_clearAllKeys` (Camera.js line 148). -/
def InputManager.handleBlur (s : InputManager) : InputManager :=
  s.clearAllKeys

/-- The `visibilitychange` handler clears keys when `document.hidden`
(Camera.js lines 149-151); `hidden` is passed explicitly. -/
def InputManager.handleVisibilityChange (hidden : Bool) (s : InputManager) : InputManager :=
  if hidden then s.clearAllKeys else s

/-- The `contextmenu` handler calls `_clearAllKeys` (Camera.js line 152). -/
def InputManager.handleContextMenu (s : InputManager) : InputManager :=
  s.clearAllKeys

/-- `_onKeyDown` (Camera.js lines 173-185); `k` is the lowercased key. -/
def InputManager.onKeyDown (k : String) (s : InputManager) : InputManager :=
  { s with
    justPressed := if s.keys k then s.justPressed else Function.update s.justPressed k true
    keys := Function.update s.keys k true }

/-- `_onKeyUp` (Camera.js lines 187-190). -/
def InputManager.onKeyUp (k : String) (s : InputManager) : InputManager :=
  { s with keys := Function.update s.keys k false }

/-- `endFrame` (Camera.js lines 246-250). -/
def InputManager.endFrame (s : InputManager) : InputManager :=
  { s with
    justPressed := fun _ => false
    mobileInteract := false
    mobileJump := false }

/-- `isMovingLeft` (Camera.js lines 253-255). -/
def InputManager.isMovingLeft (s : InputManager) : Bool :=
  s.keys keyArrowLeft || s.keys keyA || s.mobileLeft

/-- `isMovingRight` (Camera.js lines 258-260). -/
def InputManager.isMovingRight (s : InputManager) : Bool :=
  s.keys keyArrowRight || s.keys keyD || s.mobileRight

/-- `isSprinting` (Camera.js lines 263-265). -/
def InputManager.isSprinting (s : InputManager) : Bool :=
  s.keys keyShift || s.mobileSprint

/-- `isJumpPressed` (Camera.js lines 268-270). -/
def InputManager.isJumpPressed (s : InputManager) : Bool :=
  s.justPressed keySpace || s.justPressed keyW || s.justPressed keyArrowUp || s.mobileJump

/-- `isInteractPressed` (Camera.js lines 273-275). -/
def InputManager.isInteractPressed (s : InputManager) : Bool :=
  s.justPressed keyE || s.mobileInteract

/-- `isThemeTogglePressed` (Camera.js lines 278-280). -/
def InputManager.isThemeTogglePressed (s : InputManager) : Bool :=
  s.justPressed keyT

/-- `isClosePressed` (Camera.js lines 283-285). -/
def InputManager.isClosePressed (s : InputManager) : Bool :=
  s.justPressed keyEscape

/-- An axis-aligned rectangular zone (CollisionSystem.js `addSolidZone`). -/
structure Zone where
  x : ℚ
  y : ℚ
  width : ℚ
  height : ℚ

/-- CollisionSystem state (CollisionSystem.js lines 10-19). Interactive
zones carry an opaque payload in the source; no claim reads it, so the
payload is dropped here. -/
structure CollisionSystem where
  worldWidth : ℚ
  groundY : ℚ
  solidZones : List Zone
  interactiveZones : List Zone

/-- `_overlapsX` (CollisionSystem.js lines 92-96). -/
def overlapsX (playerX halfWidth : ℚ) (zone : Zone) : Bool :=
  decide (zone.x < playerX + halfWidth) && decide (playerX - halfWidth < zone.x + zone.width)

/-- One iteration of the solid-zone loop in `constrainPlayer`
(CollisionSystem.js lines 66-84): if the body overlaps the zone, displace
it to the nearer edge, the right edge winning comparisons that are not
strict. -/
def pushOut (halfWidth x : ℚ) (zone : Zone) : ℚ :=
  if overlapsX x halfWidth zone then
    if x + halfWidth - zone.x < zone.x + zone.width - (x - halfWidth) then
      zone.x - halfWidth
    else
      zone.x + zone.width + halfWidth
  else x

/-- `constrainPlayer` (CollisionSystem.js lines 55-87): clamp into world
bounds, pin to ground level, then fold the solid-zone push-outs in list
order. Takes the body's `x` and `width` (the only fields read). -/
def CollisionSystem.constrainPlayer (cs : CollisionSystem) (px pw : ℚ) : ℚ × ℚ :=
  let halfWidth := pw / 2
  let x0 := max halfWidth (min px (cs.worldWidth - halfWidth))
  (cs.solidZones.foldl (pushOut halfWidth) x0, cs.groundY)

/-- Player state (Player.js lines 6-51), presentation particle lists
omitted; `jumpEvents`, `landEvents`, `stepEvents` log the `onJump`,
`onLand`, `onStep(isSprinting)` callback invocations. -/
structure Player where
  x : ℚ
  y : ℚ
  groundY : ℚ
  width : ℚ
  height : ℚ
  speed : ℚ
  sprintMultiplier : ℚ
  velocityX : ℚ
  direction : ℤ
  isMoving : Bool
  isSprinting : Bool
  velocityY : ℚ
  gravity : ℚ
  jumpForce : ℚ
  isGrounded : Bool
  isJumping : Bool
  jumpSquash : ℚ
  walkCycle : ℚ
  breathCycle : ℚ
  bobCycle : ℚ
  canvasHeight : ℚ
  glowAlpha : ℚ
  targetGlowAlpha : ℚ
  stepTimer : ℚ
  jumpEvents : ℕ
  landEvents : ℕ
  stepEvents : List Bool

/-- Player constructor (Player.js lines 7-51). -/
def Player.init (x groundY canvasHeight : ℚ) : Player :=
  { x := x
    y := groundY
    groundY := groundY
    width := 28
    height := 48
    speed := 180
    sprintMultiplier := 9 / 5
    velocityX := 0
    direction := 1
    isMoving := false
    isSprinting := false
    velocityY := 0
    gravity := 900
    jumpForce := -380
    isGrounded := true
    isJumping := false
    jumpSquash := 0
    walkCycle := 0
    breathCycle := 0
    bobCycle := 0
    canvasHeight := canvasHeight
    glowAlpha := 0
    targetGlowAlpha := 0
    stepTimer := 0
    jumpEvents := 0
    landEvents := 0
    stepEvents := [] }

/-- Horizontal-movement section of `Player.update` (Player.js lines
57-80): reset velocity and flags, apply left then right intent (right
overwriting left when both are held), then integrate `x`. -/
def Player.horiz (input : InputManager) (dt : ℚ) (p : Player) : Player :=
  let sprinting := input.isSprinting
  let p1 := { p with velocityX := 0, isMoving := false, isSprinting := false }
  let p2 :=
    if input.isMovingLeft then
      { p1 with
        velocityX := -(if sprinting then p1.speed * p1.sprintMultiplier else p1.speed)
        direction := -1
        isMoving := true
        isSprinting := sprinting }
    else p1
  let p3 :=
    if input.isMovingRight then
      { p2 with
        velocityX := if sprinting then p2.speed * p2.sprintMultiplier else p2.speed
        direction := 1
        isMoving := true
        isSprinting := sprinting }
    else p2
  { p3 with x := p3.x + p3.velocityX * dt }

/-- Jump trigger section of `Player.update` (Player.js lines 83-89). -/
def Player.jumpStep (input : InputManager) (p : Player) : Player :=
  if input.isJumpPressed && p.isGrounded then
    { p with
      velocityY := p.jumpForce
      isGrounded := false
      isJumping := true
      jumpSquash := -(3 / 10)
      jumpEvents := p.jumpEvents + 1 }
  else p

/-- Gravity and landing section of `Player.update` (Player.js lines
92-106): semi-implicit Euler (velocity before position) while airborne,
landing when `y` reaches or passes ground level. -/
def Player.gravityStep (dt : ℚ) (p : Player) : Player :=
  if p.isGrounded then p
  else
    let vy := p.velocityY + p.gravity * dt
    let y := p.y + vy * dt
    if p.groundY ≤ y then
      { p with
        y := p.groundY
        velocityY := 0
        isGrounded := true
        isJumping := false
        jumpSquash := 3 / 10
        landEvents := p.landEvents + 1 }
    else { p with velocityY := vy, y := y }

/-- Squash decay (Player.js line 109). -/
def Player.squashDecay (p : Player) : Player :=
  { p with jumpSquash := p.jumpSquash * (85 / 100) }

/-- Constrain section of `Player.update` (Player.js lines 111-117). -/
def Player.constrainStep (cs : CollisionSystem) (p : Player) : Player :=
  let c := cs.constrainPlayer p.x p.width
  let p1 := { p with x := c.1 }
  if p1.isGrounded then { p1 with y := c.2, groundY := c.2 } else p1

/-- Walk-animation and footstep-timer section of `Player.update`
(Player.js lines 120-136). -/
def Player.walkStep (dt : ℚ) (p : Player) : Player :=
  if p.isMoving && p.isGrounded then
    let walkSpeed : ℚ := if p.isSprinting then 16 else 10
    let stepInterval : ℚ := if p.isSprinting then 18 / 100 else 3 / 10
    let p1 :=
      { p with
        walkCycle := p.walkCycle + dt * walkSpeed
        bobCycle := p.bobCycle + dt * walkSpeed
        stepTimer := p.stepTimer + dt }
    if stepInterval ≤ p1.stepTimer then
      { p1 with stepTimer := 0, stepEvents := p1.stepEvents ++ [p1.isSprinting] }
    else p1
  else
    { p with
      walkCycle := p.walkCycle * (85 / 100)
      bobCycle := p.bobCycle * (85 / 100)
      stepTimer := 0 }

/-- Breathing and glow section of `Player.update` (Player.js lines
139-142). -/
def Player.finish (dt : ℚ) (p : Player) : Player :=
  { p with
    breathCycle := p.breathCycle + dt * (5 / 2)
    glowAlpha := p.glowAlpha + (p.targetGlowAlpha - p.glowAlpha) * (5 / 100) }

/-- `Player.update` (Player.js lines 56-164), as the composition of its
sections in source order. -/
def Player.update (input : InputManager) (cs : CollisionSystem) (dt : ℚ) (p : Player) : Player :=
  Player.finish dt
    (Player.walkStep dt
      (Player.constrainStep cs
        (Player.squashDecay
          (Player.gravityStep dt
            (Player.jumpStep input
              (Player.horiz input dt p))))))

/-- Camera state (Camera.js lines 5-22). -/
structure Camera where
  x : ℚ
  y : ℚ
  width : ℚ
  height : ℚ
  worldWidth : ℚ
  smoothing : ℚ
  shakeIntensity : ℚ
  shakeDuration : ℚ
  shakeTimer : ℚ
  shakeOffsetX : ℚ
  shakeOffsetY : ℚ

/-- `Camera.update` (Camera.js lines 37-61); `rX`, `rY` are the two
`Math.random()` draws of the shake branch, in `[0, 1]`. -/
def Camera.update (c : Camera) (targetX dt rX rY : ℚ) : Camera :=
  let desiredX := targetX - c.width / 2
  let x1 := c.x + (desiredX - c.x) * c.smoothing
  let x2 := max 0 (min x1 (c.worldWidth - c.width))
  let c1 := { c with x := x2, y := 0 }
  if 0 < c1.shakeTimer then
    let timer := c1.shakeTimer - dt
    let progress := timer / c1.shakeDuration
    let intensity := c1.shakeIntensity * progress
    { c1 with
      shakeTimer := timer
      shakeOffsetX := (rX - 1 / 2) * 2 * intensity
      shakeOffsetY := (rY - 1 / 2) * 2 * intensity }
  else
    { c1 with shakeOffsetX := 0, shakeOffsetY := 0 }

/-- `Camera.shake` (Camera.js lines 86-90). -/
def Camera.shake (c : Camera) (intensity duration : ℚ) : Camera :=
  { c with
    shakeIntensity := intensity
    shakeDuration := duration
    shakeTimer := duration }

/-! Concrete collision systems, cameras, inputs and simulations used by
the theorems below. -/

def csC1 : CollisionSystem :=
  { worldWidth := 200, groundY := 0
    solidZones := [{ x := 0, y := 0, width := 20, height := 10 },
                   { x := 20, y := 0, width := 20, height := 10 }]
    interactiveZones := [] }

def csC3 : CollisionSystem :=
  { worldWidth := 100, groundY := 0
    solidZones := [{ x := 10, y := 0, width := 10, height := 5 }]
    interactiveZones := [] }

def csC2 : CollisionSystem :=
  { worldWidth := 100, groundY := 0
    solidZones := [{ x := 20, y := 0, width := 60, height := 10 }]
    interactiveZones := [] }

def camC8 : Camera :=
  { x := 0, y := 0, width := 800, height := 600, worldWidth := 2000, smoothing := 8 / 100
    shakeIntensity := 3, shakeDuration := 1 / 5, shakeTimer := 1 / 5
    shakeOffsetX := 0, shakeOffsetY := 0 }

def camC8cross : Camera :=
  { x := 0, y := 0, width := 800, height := 600, worldWidth := 2000, smoothing := 8 / 100
    shakeIntensity := 3, shakeDuration := 1 / 5, shakeTimer := 1 / 1000
    shakeOffsetX := 0, shakeOffsetY := 0 }

def csJump : CollisionSystem :=
  { worldWidth := 1000, groundY := 0, solidZones := [], interactiveZones := [] }

def jumpInput : InputManager :=
  { InputManager.init with justPressed := fun k => k == keySpace }

def simJump (dt : ℚ) : ℕ → Player
  | 0 => Player.init 100 0 600
  | n + 1 =>
      Player.update (if n = 0 then jumpInput else InputManager.init) csJump dt (simJump dt n)

def vyAt (dt : ℚ) (n : ℕ) : ℚ := -380 + 900 * dt * n

def yAt (dt : ℚ) (n : ℕ) : ℚ := -380 * n * dt + 450 * dt ^ 2 * n * (n + 1)

def walkInput : InputManager :=
  { InputManager.init with keys := fun k => k == keyD }

def simWalk (inp : InputManager) (cs : CollisionSystem) (dt : ℚ) : ℕ → Player
  | 0 => Player.init 100 0 600
  | n + 1 => Player.update inp cs dt (simWalk inp cs dt n)

/-! General lemmas about the embedded operations. -/

/-- A single push-out iteration always leaves the body's bounding box
outside the interior of the zone it just processed. -/
lemma pushOut_not_overlapping (halfWidth x : ℚ) (z : Zone) :
    overlapsX (pushOut halfWidth x z) halfWidth z = false := by
  unfold pushOut
  by_cases h : overlapsX x halfWidth z
  · simp only [h, if_true]
    split
    · simp only [overlapsX, Bool.and_eq_false_iff, decide_eq_false_iff_not, not_lt]
      left; linarith
    · simp only [overlapsX, Bool.and_eq_false_iff, decide_eq_false_iff_not, not_lt]
      right; linarith
  · simp only [h, if_false]
    simpa using h

lemma horiz_width (inp : InputManager) (dt : ℚ) (p : Player) :
    (Player.horiz inp dt p).width = p.width := by
  unfold Player.horiz; split_ifs <;> rfl

lemma jumpStep_x (inp : InputManager) (p : Player) :
    (Player.jumpStep inp p).x = p.x := by
  unfold Player.jumpStep; split_ifs <;> rfl

lemma jumpStep_width (inp : InputManager) (p : Player) :
    (Player.jumpStep inp p).width = p.width := by
  unfold Player.jumpStep; split_ifs <;> rfl

lemma jumpStep_velocityX (inp : InputManager) (p : Player) :
    (Player.jumpStep inp p).velocityX = p.velocityX := by
  unfold Player.jumpStep; split_ifs <;> rfl

lemma gravityStep_x (dt : ℚ) (p : Player) :
    (Player.gravityStep dt p).x = p.x := by
  simp only [Player.gravityStep]; split_ifs <;> rfl

lemma gravityStep_width (dt : ℚ) (p : Player) :
    (Player.gravityStep dt p).width = p.width := by
  simp only [Player.gravityStep]; split_ifs <;> rfl

lemma gravityStep_velocityX (dt : ℚ) (p : Player) :
    (Player.gravityStep dt p).velocityX = p.velocityX := by
  simp only [Player.gravityStep]; split_ifs <;> rfl

lemma squashDecay_x (p : Player) : (Player.squashDecay p).x = p.x := rfl

lemma squashDecay_width (p : Player) : (Player.squashDecay p).width = p.width := rfl

lemma squashDecay_velocityX (p : Player) : (Player.squashDecay p).velocityX = p.velocityX := rfl

lemma constrainStep_x (cs : CollisionSystem) (p : Player) :
    (Player.constrainStep cs p).x = (cs.constrainPlayer p.x p.width).1 := by
  simp only [Player.constrainStep]; split_ifs <;> rfl

lemma constrainStep_velocityX (cs : CollisionSystem) (p : Player) :
    (Player.constrainStep cs p).velocityX = p.velocityX := by
  simp only [Player.constrainStep]; split_ifs <;> rfl

lemma walkStep_x (dt : ℚ) (p : Player) : (Player.walkStep dt p).x = p.x := by
  simp only [Player.walkStep]; split_ifs <;> rfl

lemma walkStep_velocityX (dt : ℚ) (p : Player) :
    (Player.walkStep dt p).velocityX = p.velocityX := by
  simp only [Player.walkStep]; split_ifs <;> rfl

lemma finish_x (dt : ℚ) (p : Player) : (Player.finish dt p).x = p.x := rfl

lemma finish_velocityX (dt : ℚ) (p : Player) : (Player.finish dt p).velocityX = p.velocityX := rfl

/-- The jump, gravity, squash, walk and finish sections never write `x`,
`width` or `velocityX`; the constrain section rewrites `x` from the
position produced by the horizontal section. -/
lemma update_x_eq (inp : InputManager) (cs : CollisionSystem) (dt : ℚ) (p : Player) :
    (Player.update inp cs dt p).x
      = (cs.constrainPlayer ((Player.horiz inp dt p).x) p.width).1 := by
  unfold Player.update
  rw [finish_x, walkStep_x, constrainStep_x, squashDecay_x, gravityStep_x, jumpStep_x,
    squashDecay_width, gravityStep_width, jumpStep_width, horiz_width]

lemma update_velocityX_eq (inp : InputManager) (cs : CollisionSystem) (dt : ℚ) (p : Player) :
    (Player.update inp cs dt p).velocityX = (Player.horiz inp dt p).velocityX := by
  unfold Player.update
  rw [finish_velocityX, walkStep_velocityX, constrainStep_velocityX, squashDecay_velocityX,
    gravityStep_velocityX, jumpStep_velocityX]

lemma horiz_velocityX (inp : InputManager) (dt : ℚ) (p : Player) :
    (Player.horiz inp dt p).velocityX =
      (if inp.isMovingRight then
        (if inp.isSprinting then p.speed * p.sprintMultiplier else p.speed)
      else if inp.isMovingLeft then
        -(if inp.isSprinting then p.speed * p.sprintMultiplier else p.speed)
      else 0) := by
  unfold Player.horiz
  rcases hR : inp.isMovingRight <;> rcases hL : inp.isMovingLeft <;> simp [hR, hL]

lemma horiz_x (inp : InputManager) (dt : ℚ) (p : Player) :
    (Player.horiz inp dt p).x = p.x + (Player.horiz inp dt p).velocityX * dt := by
  unfold Player.horiz
  rcases hR : inp.isMovingRight <;> rcases hL : inp.isMovingLeft <;> simp [hR, hL]

lemma scaled_random_bound (r E : ℚ) (hr0 : 0 ≤ r) (hr1 : r ≤ 1) (hE : 0 ≤ E) :
    |(r - 1 / 2) * 2 * E| ≤ E := by
  rw [abs_mul, abs_of_nonneg hE, abs_mul]
  have h2 : |(2 : ℚ)| = 2 := by norm_num
  have hb : |r - 1 / 2| ≤ 1 / 2 := abs_le.mpr ⟨by linarith, by linarith⟩
  rw [h2]
  nlinarith [abs_nonneg (r - 1 / 2)]

lemma camera_update_pos (c : Camera) (targetX dt rX rY : ℚ) (h : 0 < c.shakeTimer) :
    (c.update targetX dt rX rY).shakeTimer = c.shakeTimer - dt ∧
    (c.update targetX dt rX rY).shakeOffsetX
      = (rX - 1 / 2) * 2 * (c.shakeIntensity * ((c.shakeTimer - dt) / c.shakeDuration)) ∧
    (c.update targetX dt rX rY).shakeOffsetY
      = (rY - 1 / 2) * 2 * (c.shakeIntensity * ((c.shakeTimer - dt) / c.shakeDuration)) := by
  simp only [Camera.update]
  rw [if_pos h]
  exact ⟨rfl, rfl, rfl⟩

lemma camera_update_nonpos (c : Camera) (targetX dt rX rY : ℚ) (h : c.shakeTimer ≤ 0) :
    (c.update targetX dt rX rY).shakeTimer = c.shakeTimer ∧
    (c.update targetX dt rX rY).shakeOffsetX = 0 ∧
    (c.update targetX dt rX rY).shakeOffsetY = 0 := by
  simp only [Camera.update]
  rw [if_neg (not_lt.mpr h)]
  exact ⟨rfl, rfl, rfl⟩

lemma camera_update_keeps_params (c : Camera) (targetX dt rX rY : ℚ) :
    (c.update targetX dt rX rY).shakeIntensity = c.shakeIntensity ∧
    (c.update targetX dt rX rY).shakeDuration = c.shakeDuration := by
  simp only [Camera.update]
  split_ifs <;> exact ⟨rfl, rfl⟩

lemma update_idle_airborne (inp : InputManager) (cs : CollisionSystem) (dt : ℚ) (p : Player)
    (hL : inp.isMovingLeft = false) (hR : inp.isMovingRight = false)
    (hj : inp.isJumpPressed = false) (hg : p.isGrounded = false)
    (hstay : ¬ p.groundY ≤ p.y + (p.velocityY + p.gravity * dt) * dt) :
    (Player.update inp cs dt p).isGrounded = false ∧
    (Player.update inp cs dt p).velocityY = p.velocityY + p.gravity * dt ∧
    (Player.update inp cs dt p).y = p.y + (p.velocityY + p.gravity * dt) * dt ∧
    (Player.update inp cs dt p).groundY = p.groundY ∧
    (Player.update inp cs dt p).gravity = p.gravity ∧
    (Player.update inp cs dt p).x = (cs.constrainPlayer p.x p.width).1 ∧
    (Player.update inp cs dt p).width = p.width := by
  simp [Player.update, Player.horiz, Player.jumpStep, Player.gravityStep, Player.squashDecay,
    Player.constrainStep, Player.walkStep, Player.finish, hL, hR, hj, hg, hstay]

lemma update_jump_start (inp : InputManager) (cs : CollisionSystem) (dt : ℚ) (p : Player)
    (hL : inp.isMovingLeft = false) (hR : inp.isMovingRight = false)
    (hj : inp.isJumpPressed = true) (hg : p.isGrounded = true)
    (hstay : ¬ p.groundY ≤ p.y + (p.jumpForce + p.gravity * dt) * dt) :
    (Player.update inp cs dt p).isGrounded = false ∧
    (Player.update inp cs dt p).velocityY = p.jumpForce + p.gravity * dt ∧
    (Player.update inp cs dt p).y = p.y + (p.jumpForce + p.gravity * dt) * dt ∧
    (Player.update inp cs dt p).groundY = p.groundY ∧
    (Player.update inp cs dt p).gravity = p.gravity ∧
    (Player.update inp cs dt p).x = (cs.constrainPlayer p.x p.width).1 ∧
    (Player.update inp cs dt p).width = p.width := by
  simp [Player.update, Player.horiz, Player.jumpStep, Player.gravityStep, Player.squashDecay,
    Player.constrainStep, Player.walkStep, Player.finish, hL, hR, hj, hg, hstay]

lemma update_idle_land (inp : InputManager) (cs : CollisionSystem) (dt : ℚ) (p : Player)
    (hL : inp.isMovingLeft = false) (hR : inp.isMovingRight = false)
    (hj : inp.isJumpPressed = false) (hg : p.isGrounded = false)
    (hland : p.groundY ≤ p.y + (p.velocityY + p.gravity * dt) * dt) :
    (Player.update inp cs dt p).isGrounded = true ∧
    (Player.update inp cs dt p).y = (cs.constrainPlayer p.x p.width).2 ∧
    (Player.update inp cs dt p).groundY = (cs.constrainPlayer p.x p.width).2 ∧
    (Player.update inp cs dt p).velocityY = 0 := by
  simp [Player.update, Player.horiz, Player.jumpStep, Player.gravityStep, Player.squashDecay,
    Player.constrainStep, Player.walkStep, Player.finish, hL, hR, hj, hg, hland]

lemma constrain_csJump_100 : csJump.constrainPlayer 100 28 = (100, 0) := by
  simp only [CollisionSystem.constrainPlayer, csJump, List.foldl]
  norm_num [min_def, max_def]

lemma idle_not_left : InputManager.init.isMovingLeft = false := rfl

lemma idle_not_right : InputManager.init.isMovingRight = false := rfl

lemma idle_no_jump : InputManager.init.isJumpPressed = false := rfl

lemma jumpInput_not_left : jumpInput.isMovingLeft = false := rfl

lemma jumpInput_not_right : jumpInput.isMovingRight = false := rfl

lemma jumpInput_jump : jumpInput.isJumpPressed = true := by
  simp [jumpInput, InputManager.isJumpPressed, InputManager.init]

lemma simJump_one (dt : ℚ) :
    simJump dt 1 = Player.update jumpInput csJump dt (Player.init 100 0 600) := by
  simp [simJump]

lemma simJump_succ (dt : ℚ) (n : ℕ) (h1 : 1 ≤ n) :
    simJump dt (n + 1) = Player.update InputManager.init csJump dt (simJump dt n) := by
  simp only [simJump]
  rw [if_neg (Nat.one_le_iff_ne_zero.mp h1)]

lemma simJump_airborne (dt : ℚ) (hdt : 0 < dt) (n : ℕ) (h1 : 1 ≤ n)
    (hn : 450 * dt * (n + 1) < 380) :
    (simJump dt n).isGrounded = false ∧
    (simJump dt n).velocityY = vyAt dt n ∧
    (simJump dt n).y = yAt dt n ∧
    (simJump dt n).groundY = 0 ∧
    (simJump dt n).gravity = 900 ∧
    (simJump dt n).x = 100 ∧
    (simJump dt n).width = 28 := by
  induction n, h1 using Nat.le_induction with
  | base =>
    have hn1 : (900 : ℚ) * dt < 380 := by push_cast at hn; linarith
    have hstay : ¬ (Player.init 100 0 600).groundY ≤ (Player.init 100 0 600).y
        + ((Player.init 100 0 600).jumpForce + (Player.init 100 0 600).gravity * dt) * dt := by
      show ¬ (0 : ℚ) ≤ 0 + (-380 + 900 * dt) * dt
      nlinarith
    obtain ⟨hg', hvy', hy', hgy', hgrav', hx', hw'⟩ :=
      update_jump_start jumpInput csJump dt (Player.init 100 0 600)
        jumpInput_not_left jumpInput_not_right jumpInput_jump rfl hstay
    rw [simJump_one]
    refine ⟨hg', ?_, ?_, hgy', hgrav', ?_, hw'⟩
    · rw [hvy']
      show (-380 : ℚ) + 900 * dt = vyAt dt 1
      unfold vyAt; push_cast; ring
    · rw [hy']
      show (0 : ℚ) + (-380 + 900 * dt) * dt = yAt dt 1
      unfold yAt; push_cast; ring
    · rw [hx']
      show (csJump.constrainPlayer 100 28).1 = 100
      rw [constrain_csJump_100]
  | succ n h1 ih =>
    have hn' : 450 * dt * (n + 1) < 380 := by
      push_cast at hn ⊢
      nlinarith
    obtain ⟨hg, hvy, hy, hgy, hgrav, hx, hw⟩ := ih hn'
    have hb : -380 + 450 * dt * ((n : ℚ) + 2) < 0 := by push_cast at hn; linarith
    have hfac : yAt dt (n + 1) = (((n : ℚ) + 1) * dt) * (-380 + 450 * dt * ((n : ℚ) + 2)) := by
      unfold yAt; push_cast; ring
    have hylt : yAt dt (n + 1) < 0 := by
      rw [hfac]
      exact mul_neg_of_pos_of_neg (by positivity) hb
    have hstep : yAt dt n + (vyAt dt n + 900 * dt) * dt = yAt dt (n + 1) := by
      unfold yAt vyAt; push_cast; ring
    have hstay : ¬ (simJump dt n).groundY ≤ (simJump dt n).y
        + ((simJump dt n).velocityY + (simJump dt n).gravity * dt) * dt := by
      rw [hgy, hy, hvy, hgrav, hstep]
      linarith
    obtain ⟨hg', hvy', hy', hgy', hgrav', hx', hw'⟩ :=
      update_idle_airborne InputManager.init csJump dt (simJump dt n)
        idle_not_left idle_not_right idle_no_jump hg hstay
    rw [simJump_succ dt n h1]
    refine ⟨hg', ?_, ?_, ?_, ?_, ?_, ?_⟩
    · rw [hvy', hvy, hgrav]
      unfold vyAt; push_cast; ring
    · rw [hy', hy, hvy, hgrav, hstep]
    · rw [hgy', hgy]
    · rw [hgrav', hgrav]
    · rw [hx', hx, hw]
      show (csJump.constrainPlayer 100 28).1 = 100
      rw [constrain_csJump_100]
    · rw [hw', hw]

lemma simJump_lands (dt : ℚ) (hdt : 0 < dt) (n : ℕ) (h1 : 1 ≤ n)
    (hn : 450 * dt * (n + 1) < 380) (hland : 380 ≤ 450 * dt * (n + 2)) :
    (simJump dt (n + 1)).isGrounded = true ∧
    (simJump dt (n + 1)).y = 0 ∧
    (simJump dt (n + 1)).groundY = 0 := by
  obtain ⟨hg, hvy, hy, hgy, hgrav, hx, hw⟩ := simJump_airborne dt hdt n h1 hn
  have hstep : yAt dt n + (vyAt dt n + 900 * dt) * dt = yAt dt (n + 1) := by
    unfold yAt vyAt; push_cast; ring
  have hfac : yAt dt (n + 1) = (((n : ℚ) + 1) * dt) * (-380 + 450 * dt * ((n : ℚ) + 2)) := by
    unfold yAt; push_cast; ring
  have hyge : 0 ≤ yAt dt (n + 1) := by
    rw [hfac]
    have hb : 0 ≤ -380 + 450 * dt * ((n : ℚ) + 2) := by linarith
    positivity
  have hland' : (simJump dt n).groundY ≤ (simJump dt n).y
      + ((simJump dt n).velocityY + (simJump dt n).gravity * dt) * dt := by
    rw [hgy, hy, hvy, hgrav, hstep]
    exact hyge
  obtain ⟨hg', hy', hgy', hvy'⟩ :=
    update_idle_land InputManager.init csJump dt (simJump dt n)
      idle_not_left idle_not_right idle_no_jump hg hland'
  rw [simJump_succ dt n h1]
  refine ⟨hg', ?_, ?_⟩
  · rw [hy', hx, hw]
    show (csJump.constrainPlayer 100 28).2 = 0
    rw [constrain_csJump_100]
  · rw [hgy', hx, hw]
    show (csJump.constrainPlayer 100 28).2 = 0
    rw [constrain_csJump_100]

lemma simWalk_succ (inp : InputManager) (cs : CollisionSystem) (dt : ℚ) (n : ℕ) :
    simWalk inp cs dt (n + 1) = Player.update inp cs dt (simWalk inp cs dt n) := rfl

lemma update_grounded_moving (inp : InputManager) (cs : CollisionSystem) (dt : ℚ) (p : Player)
    (hg : p.isGrounded = true) (hj : inp.isJumpPressed = false)
    (hmove : inp.isMovingLeft = true ∨ inp.isMovingRight = true) :
    (Player.update inp cs dt p).isGrounded = true ∧
    ((Player.update inp cs dt p).stepTimer
        = if (if inp.isSprinting then (18 / 100 : ℚ) else 3 / 10) ≤ p.stepTimer + dt then 0
          else p.stepTimer + dt) ∧
    ((Player.update inp cs dt p).stepEvents
        = if (if inp.isSprinting then (18 / 100 : ℚ) else 3 / 10) ≤ p.stepTimer + dt
          then p.stepEvents ++ [inp.isSprinting] else p.stepEvents) := by
  rcases hL : inp.isMovingLeft <;> rcases hR : inp.isMovingRight <;>
    rcases hs : inp.isSprinting <;>
    simp_all [Player.update, Player.horiz, Player.jumpStep, Player.gravityStep,
      Player.squashDecay, Player.constrainStep, Player.walkStep, Player.finish] <;>
    split_ifs <;> simp_all

lemma simWalk_invariant (inp : InputManager) (cs : CollisionSystem) (dt : ℚ) (k : ℕ)
    (hj : inp.isJumpPressed = false)
    (hmove : inp.isMovingLeft = true ∨ inp.isMovingRight = true)
    (hdt : 0 < dt) (hk : 0 < k)
    (hint : (if inp.isSprinting then (18 / 100 : ℚ) else 3 / 10) = k * dt) (n : ℕ) :
    (simWalk inp cs dt n).isGrounded = true ∧
    (simWalk inp cs dt n).stepTimer = ((n % k : ℕ) : ℚ) * dt ∧
    (simWalk inp cs dt n).stepEvents.length = n / k := by
  induction n with
  | zero => refine ⟨rfl, ?_, ?_⟩ <;> simp [simWalk, Player.init]
  | succ n ih =>
    obtain ⟨hg, ht, hl⟩ := ih
    obtain ⟨hg', ht', hl'⟩ := update_grounded_moving inp cs dt (simWalk inp cs dt n) hg hj hmove
    rw [hint, ht] at ht' hl'
    have hdm := Nat.div_add_mod n k
    have hlt : n % k < k := Nat.mod_lt n hk
    have hcast : ((n % k : ℕ) : ℚ) * dt + dt = ((n % k + 1 : ℕ) : ℚ) * dt := by
      push_cast; ring
    rw [simWalk_succ]
    by_cases hc : k ≤ n % k + 1
    · have hp : (k : ℚ) * dt ≤ ((n % k : ℕ) : ℚ) * dt + dt := by
        rw [hcast]
        exact mul_le_mul_of_nonneg_right (by exact_mod_cast hc) hdt.le
      rw [if_pos hp] at ht' hl'
      have hmk : n % k + 1 = k := by omega
      have hsplit : n + 1 = k * (n / k + 1) := by
        rw [Nat.mul_add, mul_one]
        omega
      refine ⟨hg', ?_, ?_⟩
      · rw [ht', hsplit, Nat.mul_mod_right]
        simp
      · rw [hl', List.length_append, hl, hsplit, Nat.mul_div_cancel_left _ hk,
          List.length_singleton]
    · have hc' : n % k + 1 < k := by omega
      have hp : ¬ (k : ℚ) * dt ≤ ((n % k : ℕ) : ℚ) * dt + dt := by
        rw [hcast]
        exact not_le.mpr (mul_lt_mul_of_pos_right (by exact_mod_cast hc') hdt)
      rw [if_neg hp] at ht' hl'
      have hsplit : n + 1 = (n % k + 1) + k * (n / k) := by omega
      refine ⟨hg', ?_, ?_⟩
      · rw [ht', hsplit, Nat.add_mul_mod_self_left, Nat.mod_eq_of_lt hc']
        push_cast; ring
      · rw [hl', hl, hsplit, Nat.add_mul_div_left _ _ hk, Nat.div_eq_of_lt hc', Nat.zero_add]

/-! Theorems settling the claims. -/

/-- C4: handling window blur, visibility-change-to-hidden or context-menu
clears every held key, every just-pressed entry and all five touch flags,
for any prior input state. -/
theorem focus_loss_clears_all (s : InputManager) (k : String) :
    ((s.handleBlur).keys k = false ∧ (s.handleBlur).justPressed k = false ∧
      (s.handleBlur).mobileLeft = false ∧ (s.handleBlur).mobileRight = false ∧
      (s.handleBlur).mobileInteract = false ∧ (s.handleBlur).mobileSprint = false ∧
      (s.handleBlur).mobileJump = false) ∧
    ((s.handleVisibilityChange true).keys k = false ∧
      (s.handleVisibilityChange true).justPressed k = false ∧
      (s.handleVisibilityChange true).mobileLeft = false ∧
      (s.handleVisibilityChange true).mobileRight = false ∧
      (s.handleVisibilityChange true).mobileInteract = false ∧
      (s.handleVisibilityChange true).mobileSprint = false ∧
      (s.handleVisibilityChange true).mobileJump = false) ∧
    ((s.handleContextMenu).keys k = false ∧ (s.handleContextMenu).justPressed k = false ∧
      (s.handleContextMenu).mobileLeft = false ∧ (s.handleContextMenu).mobileRight = false ∧
      (s.handleContextMenu).mobileInteract = false ∧ (s.handleContextMenu).mobileSprint = false ∧
      (s.handleContextMenu).mobileJump = false) := by
  refine ⟨⟨rfl, rfl, rfl, rfl, rfl, rfl, rfl⟩, ⟨rfl, rfl, rfl, rfl, rfl, rfl, rfl⟩,
    ⟨rfl, rfl, rfl, rfl, rfl, rfl, rfl⟩⟩

/-- C10: endFrame clears exactly the just-pressed map and the
mobileInteract and mobileJump flags; held keys and the mobileLeft,
mobileRight and mobileSprint flags are untouched. -/
theorem endFrame_resets_edge_flags_only (s : InputManager) (k : String) :
    s.endFrame.justPressed k = false ∧ s.endFrame.mobileInteract = false ∧
    s.endFrame.mobileJump = false ∧ s.endFrame.keys = s.keys ∧
    s.endFrame.mobileLeft = s.mobileLeft ∧ s.endFrame.mobileRight = s.mobileRight ∧
    s.endFrame.mobileSprint = s.mobileSprint ∧ s.endFrame.isMobile = s.isMobile :=
  ⟨rfl, rfl, rfl, rfl, rfl, rfl, rfl, rfl⟩

/-- C5: a key-down while the key is up sets held and just-pressed; after
one endFrame the just-pressed flag is cleared while held persists, held
survives any further key-down events (auto-repeat included, which also
does not re-arm just-pressed), and held clears on the key-up. -/
theorem keydown_edge_trigger (s : InputManager) (k : String) (ks : List String)
    (h : s.keys k = false) :
    (s.onKeyDown k).keys k = true ∧
    (s.onKeyDown k).justPressed k = true ∧
    ((s.onKeyDown k).endFrame).justPressed k = false ∧
    ((s.onKeyDown k).endFrame).keys k = true ∧
    (((s.onKeyDown k).endFrame).onKeyDown k).justPressed k = false ∧
    (ks.foldl (fun t k2 => t.onKeyDown k2) ((s.onKeyDown k).endFrame)).keys k = true ∧
    ((ks.foldl (fun t k2 => t.onKeyDown k2) ((s.onKeyDown k).endFrame)).onKeyUp k).keys k
      = false := by
  have hkeys : ∀ t : InputManager, t.keys k = true → ∀ l : List String,
      (l.foldl (fun t k2 => t.onKeyDown k2) t).keys k = true := by
    intro t ht l
    induction l generalizing t with
    | nil => exact ht
    | cons a l ih =>
      refine ih _ ?_
      simp only [InputManager.onKeyDown]
      by_cases hak : k = a
      · subst hak; simp [Function.update_same]
      · simp [Function.update_noteq hak, ht]
  refine ⟨?_, ?_, rfl, ?_, ?_, ?_, ?_⟩
  · simp [InputManager.onKeyDown, Function.update_same]
  · simp [InputManager.onKeyDown, h, Function.update_same]
  · simp [InputManager.endFrame, InputManager.onKeyDown, Function.update_same]
  · simp [InputManager.onKeyDown, InputManager.endFrame, Function.update_same]
  · exact hkeys _ (by simp [InputManager.endFrame, InputManager.onKeyDown, Function.update_same]) ks
  · simp [InputManager.onKeyUp, Function.update_same]

theorem keydown_edge_trigger_witness :
    (InputManager.init.onKeyDown keyA).keys keyA = true ∧
    (InputManager.init.onKeyDown keyA).justPressed keyA = true ∧
    (((InputManager.init.onKeyDown keyA)).endFrame).justPressed keyA = false ∧
    (((InputManager.init.onKeyDown keyA)).endFrame).keys keyA = true ∧
    ((((InputManager.init.onKeyDown keyA)).endFrame).onKeyDown keyA).justPressed keyA = false ∧
    ([keyA, keyD].foldl (fun t k2 => t.onKeyDown k2)
      ((InputManager.init.onKeyDown keyA).endFrame)).keys keyA = true ∧
    (([keyA, keyD].foldl (fun t k2 => t.onKeyDown k2)
      ((InputManager.init.onKeyDown keyA).endFrame)).onKeyUp keyA).keys keyA = false :=
  keydown_edge_trigger InputManager.init keyA [keyA, keyD] rfl

/-- C1 amended: with a single solid zone the returned position's bounding
box never overlaps that zone's interior. -/
theorem constrain_single_zone_excludes (worldW g px pw : ℚ) (z : Zone) :
    overlapsX
      ((CollisionSystem.constrainPlayer
        { worldWidth := worldW, groundY := g, solidZones := [z], interactiveZones := [] }
        px pw).1)
      (pw / 2) z = false := by
  simp only [CollisionSystem.constrainPlayer, List.foldl]
  exact pushOut_not_overlapping _ _ z

/-- C1 counterexample: with two adjacent zones, a body overlapping the
first is pushed into the second, and the second push-out returns it
strictly inside the first zone's interior. -/
theorem constrain_multi_zone_counterexample :
    overlapsX 19 (8 / 2) { x := 0, y := 0, width := 20, height := 10 } = true ∧
    (csC1.constrainPlayer 19 8).1 = 16 ∧
    overlapsX ((csC1.constrainPlayer 19 8).1) (8 / 2)
      { x := 0, y := 0, width := 20, height := 10 } = true := by
  have h1 : (csC1.constrainPlayer 19 8).1 = 16 := by
    simp only [csC1, CollisionSystem.constrainPlayer, List.foldl]
    norm_num [pushOut, overlapsX]
  refine ⟨by norm_num [overlapsX], h1, ?_⟩
  rw [h1]
  norm_num [overlapsX]

/-- C2 amended: with no solid zones (and a world at least as wide as the
body) every update does land inside world bounds; the counterexample
shows the conjunction fails once a zone push-out fires. -/
theorem update_x_in_bounds_no_zones (inp : InputManager) (worldW g dt : ℚ) (p : Player)
    (hW : p.width ≤ worldW) :
    p.width / 2
        ≤ (Player.update inp
            { worldWidth := worldW, groundY := g, solidZones := [], interactiveZones := [] }
            dt p).x ∧
      (Player.update inp
          { worldWidth := worldW, groundY := g, solidZones := [], interactiveZones := [] }
          dt p).x ≤ worldW - p.width / 2 := by
  rw [update_x_eq]
  simp only [CollisionSystem.constrainPlayer, List.foldl]
  constructor
  · exact le_max_left _ _
  · refine max_le (by linarith) ?_
    exact le_trans (min_le_right _ _) (le_refl _)

theorem update_x_in_bounds_no_zones_witness :
    (Player.init 50 0 600).width / 2
        ≤ (Player.update InputManager.init
            { worldWidth := 100, groundY := 0, solidZones := [], interactiveZones := [] }
            0 (Player.init 50 0 600)).x ∧
      (Player.update InputManager.init
          { worldWidth := 100, groundY := 0, solidZones := [], interactiveZones := [] }
          0 (Player.init 50 0 600)).x ≤ 100 - (Player.init 50 0 600).width / 2 :=
  update_x_in_bounds_no_zones InputManager.init 100 0 0 (Player.init 50 0 600)
    (by norm_num [Player.init])

/-- C2 counterexample: a zone push-out fires after the world clamp, so
one update can end with the body outside world bounds (x = 6 < 14). -/
theorem update_leaves_world_bounds_counterexample :
    (Player.update InputManager.init csC2 0 (Player.init 14 0 600)).x = 6 ∧
    ¬((Player.init 14 0 600).width / 2
        ≤ (Player.update InputManager.init csC2 0 (Player.init 14 0 600)).x) := by
  have h : (Player.update InputManager.init csC2 0 (Player.init 14 0 600)).x = 6 := by
    rw [update_x_eq, horiz_x, horiz_velocityX]
    norm_num [InputManager.isMovingLeft, InputManager.isMovingRight, InputManager.init,
      Player.init, csC2, CollisionSystem.constrainPlayer, pushOut, overlapsX,
      min_def, max_def]
  rw [h]
  norm_num [Player.init]

/-- C3 amended: when the push-out distances to the two edges are equal,
the body is displaced to the right edge (zone.x + zone.width +
halfWidth), since only a strictly smaller left distance selects the left
edge. -/
theorem tie_pushes_to_right_edge (halfWidth x : ℚ) (z : Zone)
    (hov : overlapsX x halfWidth z = true)
    (htie : x + halfWidth - z.x = z.x + z.width - (x - halfWidth)) :
    pushOut halfWidth x z = z.x + z.width + halfWidth := by
  unfold pushOut
  rw [if_pos hov, if_neg (by linarith)]

theorem tie_pushes_to_right_edge_witness :
    pushOut 2 15 { x := 10, y := 0, width := 10, height := 5 } = 10 + 10 + 2 :=
  tie_pushes_to_right_edge 2 15 { x := 10, y := 0, width := 10, height := 5 }
    (by norm_num [overlapsX]) (by norm_num)

/-- C3 counterexample: a body centred on a zone (equal push-out distance
to both edges) is displaced to the right edge, not the left one. -/
theorem tie_goes_right_counterexample :
    (15 : ℚ) + 4 / 2 - 10 = 10 + 10 - (15 - 4 / 2) ∧
    (csC3.constrainPlayer 15 4).1 = 22 ∧ (csC3.constrainPlayer 15 4).1 ≠ 10 - 4 / 2 := by
  refine ⟨by norm_num, ?_, ?_⟩ <;>
    simp only [csC3, CollisionSystem.constrainPlayer, List.foldl] <;>
    norm_num [pushOut, overlapsX]

/-- C6: with jumpForce -380 and gravity 900, a jump from rest lands
(grounded again with y back at ground level 0) after 25 ticks of dt =
1/30 and after 202 ticks of dt = 1/240, i.e. after 0.8333s and 0.8417s
of simulated time; both landing times are within 1/60 s of the
continuous-time estimate 2*380/900 = 0.8444s and within 1/60 s of each
other, under the semi-implicit Euler order embedded in gravityStep. -/
theorem jump_landing_time_consistency :
    (simJump (1 / 30) 24).isGrounded = false ∧
    (simJump (1 / 30) 25).isGrounded = true ∧
    (simJump (1 / 30) 25).y = 0 ∧
    (simJump (1 / 30) 25).groundY = 0 ∧
    (simJump (1 / 240) 201).isGrounded = false ∧
    (simJump (1 / 240) 202).isGrounded = true ∧
    (simJump (1 / 240) 202).y = 0 ∧
    (simJump (1 / 240) 202).groundY = 0 ∧
    |(25 : ℚ) * (1 / 30) - 2 * 380 / 900| ≤ 1 / 60 ∧
    |(202 : ℚ) * (1 / 240) - 2 * 380 / 900| ≤ 1 / 60 ∧
    |(25 : ℚ) * (1 / 30) - (202 : ℚ) * (1 / 240)| ≤ 1 / 60 := by
  have h30 := simJump_lands (1 / 30) (by norm_num) 24 (by norm_num) (by push_cast; norm_num)
    (by push_cast; norm_num)
  have h240 := simJump_lands (1 / 240) (by norm_num) 201 (by norm_num) (by push_cast; norm_num)
    (by push_cast; norm_num)
  have a30 := simJump_airborne (1 / 30) (by norm_num) 24 (by norm_num) (by push_cast; norm_num)
  have a240 := simJump_airborne (1 / 240) (by norm_num) 201 (by norm_num)
    (by push_cast; norm_num)
  refine ⟨a30.1, h30.1, h30.2.1, h30.2.2, a240.1, h240.1, h240.2.1, h240.2.2, ?_, ?_, ?_⟩
  all_goals rw [abs_le]; constructor <;> norm_num

/-- C7 amended: when the footstep interval is an exact integer multiple
k of the tick size dt, the number of onStep notifications over m ticks
of continuous grounded movement equals floor(duration / interval) with
duration = m * dt; the counterexample shows the equality fails for tick
sizes that do not divide the interval, because the timer resets to zero
instead of carrying the residual. -/
theorem footstep_count_divisible (inp : InputManager) (cs : CollisionSystem) (dt : ℚ)
    (k m : ℕ)
    (hj : inp.isJumpPressed = false)
    (hmove : inp.isMovingLeft = true ∨ inp.isMovingRight = true)
    (hdt : 0 < dt)
    (hint : (if inp.isSprinting then (18 / 100 : ℚ) else 3 / 10) = k * dt) :
    (simWalk inp cs dt m).stepEvents.length
      = ⌊((m : ℚ) * dt) / (if inp.isSprinting then (18 / 100 : ℚ) else 3 / 10)⌋₊ := by
  have hipos : (0 : ℚ) < (if inp.isSprinting then (18 / 100 : ℚ) else 3 / 10) := by
    split <;> norm_num
  have hk : 0 < k := by
    rcases Nat.eq_zero_or_pos k with h0 | h
    · exfalso
      rw [h0] at hint
      push_cast at hint
      rw [hint] at hipos
      simp at hipos
    · exact h
  obtain ⟨-, -, hl⟩ := simWalk_invariant inp cs dt k hj hmove hdt hk hint m
  rw [hl, hint]
  rw [mul_div_mul_right _ _ (ne_of_gt hdt)]
  rw [Nat.floor_div_nat, Nat.floor_natCast]

theorem footstep_count_divisible_witness :
    (simWalk walkInput csJump (3 / 10) 2).stepEvents.length
      = ⌊((2 : ℚ) * (3 / 10)) / (if walkInput.isSprinting then (18 / 100 : ℚ) else 3 / 10)⌋₊ :=
  footstep_count_divisible walkInput csJump (3 / 10) 1 2 rfl (Or.inr rfl) (by norm_num)
    (by simp [walkInput, InputManager.isSprinting, InputManager.init, keyShift, keyD])

/-- C7 counterexample: walking (interval 0.3 s) with tick size dt = 0.2 s
for 6 ticks (duration 1.2 s) emits 3 footstep notifications, while
floor(duration / interval) = 4, because the timer resets to zero on each
notification instead of keeping the residual. -/
theorem footstep_count_counterexample :
    (simWalk walkInput csJump (1 / 5) 6).stepEvents.length = 3 ∧
    ⌊((6 : ℚ) * (1 / 5)) / (if walkInput.isSprinting then (18 / 100 : ℚ) else 3 / 10)⌋₊ = 4 ∧
    ¬ ((simWalk walkInput csJump (1 / 5) 6).stepEvents.length
        = ⌊((6 : ℚ) * (1 / 5))
            / (if walkInput.isSprinting then (18 / 100 : ℚ) else 3 / 10)⌋₊) := by
  have hs : walkInput.isSprinting = false := by
    simp [walkInput, InputManager.isSprinting, InputManager.init, keyShift, keyD]
  have hj : walkInput.isJumpPressed = false := rfl
  have hmove : walkInput.isMovingLeft = true ∨ walkInput.isMovingRight = true := by
    right
    simp [walkInput, InputManager.isMovingRight, InputManager.init, keyArrowRight, keyD]
  have g0 : (simWalk walkInput csJump (1 / 5) 0).isGrounded = true := rfl
  have t0 : (simWalk walkInput csJump (1 / 5) 0).stepTimer = 0 := rfl
  have e0 : (simWalk walkInput csJump (1 / 5) 0).stepEvents = [] := rfl
  have s1 := update_grounded_moving walkInput csJump (1 / 5)
    (simWalk walkInput csJump (1 / 5) 0) g0 hj hmove
  have g1 : (simWalk walkInput csJump (1 / 5) 1).isGrounded = true := s1.1
  have t1 : (simWalk walkInput csJump (1 / 5) 1).stepTimer = 1 / 5 := by
    show (Player.update walkInput csJump (1 / 5)
      (simWalk walkInput csJump (1 / 5) 0)).stepTimer = 1 / 5
    have h := s1.2.1
    rw [t0] at h
    simp only [hs, Bool.false_eq_true, if_false] at h
    rw [if_neg (by norm_num)] at h
    rw [h]
    norm_num
  have e1 : (simWalk walkInput csJump (1 / 5) 1).stepEvents = [] := by
    show (Player.update walkInput csJump (1 / 5)
      (simWalk walkInput csJump (1 / 5) 0)).stepEvents = []
    have h := s1.2.2
    rw [t0, e0] at h
    simp only [hs, Bool.false_eq_true, if_false] at h
    rw [if_neg (by norm_num)] at h
    exact h
  have s2 := update_grounded_moving walkInput csJump (1 / 5)
    (simWalk walkInput csJump (1 / 5) 1) g1 hj hmove
  have g2 : (simWalk walkInput csJump (1 / 5) 2).isGrounded = true := s2.1
  have t2 : (simWalk walkInput csJump (1 / 5) 2).stepTimer = 0 := by
    show (Player.update walkInput csJump (1 / 5)
      (simWalk walkInput csJump (1 / 5) 1)).stepTimer = 0
    have h := s2.2.1
    rw [t1] at h
    simp only [hs, Bool.false_eq_true, if_false] at h
    rw [if_pos (by norm_num)] at h
    exact h
  have e2 : (simWalk walkInput csJump (1 / 5) 2).stepEvents = [false] := by
    show (Player.update walkInput csJump (1 / 5)
      (simWalk walkInput csJump (1 / 5) 1)).stepEvents = [false]
    have h := s2.2.2
    rw [t1, e1] at h
    simp only [hs, Bool.false_eq_true, if_false] at h
    rw [if_pos (by norm_num)] at h
    rw [h]
    simp [hs]
  have s3 := update_grounded_moving walkInput csJump (1 / 5)
    (simWalk walkInput csJump (1 / 5) 2) g2 hj hmove
  have g3 : (simWalk walkInput csJump (1 / 5) 3).isGrounded = true := s3.1
  have t3 : (simWalk walkInput csJump (1 / 5) 3).stepTimer = 1 / 5 := by
    show (Player.update walkInput csJump (1 / 5)
      (simWalk walkInput csJump (1 / 5) 2)).stepTimer = 1 / 5
    have h := s3.2.1
    rw [t2] at h
    simp only [hs, Bool.false_eq_true, if_false] at h
    rw [if_neg (by norm_num)] at h
    rw [h]
    norm_num
  have e3 : (simWalk walkInput csJump (1 / 5) 3).stepEvents = [false] := by
    show (Player.update walkInput csJump (1 / 5)
      (simWalk walkInput csJump (1 / 5) 2)).stepEvents = [false]
    have h := s3.2.2
    rw [t2, e2] at h
    simp only [hs, Bool.false_eq_true, if_false] at h
    rw [if_neg (by norm_num)] at h
    exact h
  have s4 := update_grounded_moving walkInput csJump (1 / 5)
    (simWalk walkInput csJump (1 / 5) 3) g3 hj hmove
  have g4 : (simWalk walkInput csJump (1 / 5) 4).isGrounded = true := s4.1
  have t4 : (simWalk walkInput csJump (1 / 5) 4).stepTimer = 0 := by
    show (Player.update walkInput csJump (1 / 5)
      (simWalk walkInput csJump (1 / 5) 3)).stepTimer = 0
    have h := s4.2.1
    rw [t3] at h
    simp only [hs, Bool.false_eq_true, if_false] at h
    rw [if_pos (by norm_num)] at h
    exact h
  have e4 : (simWalk walkInput csJump (1 / 5) 4).stepEvents = [false, false] := by
    show (Player.update walkInput csJump (1 / 5)
      (simWalk walkInput csJump (1 / 5) 3)).stepEvents = [false, false]
    have h := s4.2.2
    rw [t3, e3] at h
    simp only [hs, Bool.false_eq_true, if_false] at h
    rw [if_pos (by norm_num)] at h
    rw [h]
    simp [hs]
  have s5 := update_grounded_moving walkInput csJump (1 / 5)
    (simWalk walkInput csJump (1 / 5) 4) g4 hj hmove
  have g5 : (simWalk walkInput csJump (1 / 5) 5).isGrounded = true := s5.1
  have t5 : (simWalk walkInput csJump (1 / 5) 5).stepTimer = 1 / 5 := by
    show (Player.update walkInput csJump (1 / 5)
      (simWalk walkInput csJump (1 / 5) 4)).stepTimer = 1 / 5
    have h := s5.2.1
    rw [t4] at h
    simp only [hs, Bool.false_eq_true, if_false] at h
    rw [if_neg (by norm_num)] at h
    rw [h]
    norm_num
  have e5 : (simWalk walkInput csJump (1 / 5) 5).stepEvents = [false, false] := by
    show (Player.update walkInput csJump (1 / 5)
      (simWalk walkInput csJump (1 / 5) 4)).stepEvents = [false, false]
    have h := s5.2.2
    rw [t4, e4] at h
    simp only [hs, Bool.false_eq_true, if_false] at h
    rw [if_neg (by norm_num)] at h
    exact h
  have s6 := update_grounded_moving walkInput csJump (1 / 5)
    (simWalk walkInput csJump (1 / 5) 5) g5 hj hmove
  have g6 : (simWalk walkInput csJump (1 / 5) 6).isGrounded = true := s6.1
  have t6 : (simWalk walkInput csJump (1 / 5) 6).stepTimer = 0 := by
    show (Player.update walkInput csJump (1 / 5)
      (simWalk walkInput csJump (1 / 5) 5)).stepTimer = 0
    have h := s6.2.1
    rw [t5] at h
    simp only [hs, Bool.false_eq_true, if_false] at h
    rw [if_pos (by norm_num)] at h
    exact h
  have e6 : (simWalk walkInput csJump (1 / 5) 6).stepEvents = [false, false, false] := by
    show (Player.update walkInput csJump (1 / 5)
      (simWalk walkInput csJump (1 / 5) 5)).stepEvents = [false, false, false]
    have h := s6.2.2
    rw [t5, e5] at h
    simp only [hs, Bool.false_eq_true, if_false] at h
    rw [if_pos (by norm_num)] at h
    rw [h]
    simp [hs]
  have hfloor : ⌊((6 : ℚ) * (1 / 5))
      / (if walkInput.isSprinting then (18 / 100 : ℚ) else 3 / 10)⌋₊ = 4 := by
    simp only [hs, Bool.false_eq_true, if_false]
    norm_num
  have hlen : (simWalk walkInput csJump (1 / 5) 6).stepEvents.length = 3 := by
    rw [e6]
    rfl
  exact ⟨hlen, hfloor, by rw [hlen, hfloor]; norm_num⟩

/-- C8 amended: shake arms the countdown; update preserves intensity and
duration; an update starting with the countdown already elapsed yields
exactly zero offsets; an update whose stored remaining time stays
positive after the decrement yields offsets bounded by intensity times
remaining over duration. The single crossing tick (pre-update remaining
in (0, dt]) is excluded: there the code scales the offset by a negative
envelope and the original claim fails, as the counterexample shows. -/
theorem shake_offset_envelope (c : Camera) (i d targetX dt rX rY : ℚ)
    (hi : 0 ≤ c.shakeIntensity) (hd : 0 < c.shakeDuration)
    (hrX0 : 0 ≤ rX) (hrX1 : rX ≤ 1) (hrY0 : 0 ≤ rY) (hrY1 : rY ≤ 1) :
    (c.shake i d).shakeTimer = d ∧
    ((c.update targetX dt rX rY).shakeIntensity = c.shakeIntensity ∧
      (c.update targetX dt rX rY).shakeDuration = c.shakeDuration) ∧
    (c.shakeTimer ≤ 0 →
      (c.update targetX dt rX rY).shakeOffsetX = 0 ∧
      (c.update targetX dt rX rY).shakeOffsetY = 0) ∧
    (0 < (c.update targetX dt rX rY).shakeTimer →
      |(c.update targetX dt rX rY).shakeOffsetX|
          ≤ c.shakeIntensity * ((c.update targetX dt rX rY).shakeTimer / c.shakeDuration) ∧
      |(c.update targetX dt rX rY).shakeOffsetY|
          ≤ c.shakeIntensity * ((c.update targetX dt rX rY).shakeTimer / c.shakeDuration)) := by
  refine ⟨rfl, camera_update_keeps_params c targetX dt rX rY, ?_, ?_⟩
  · intro h
    exact ⟨(camera_update_nonpos c targetX dt rX rY h).2.1,
      (camera_update_nonpos c targetX dt rX rY h).2.2⟩
  · intro hpos
    by_cases hg : 0 < c.shakeTimer
    · obtain ⟨ht, hx, hy⟩ := camera_update_pos c targetX dt rX rY hg
      rw [ht] at hpos
      have hE : 0 ≤ c.shakeIntensity * ((c.shakeTimer - dt) / c.shakeDuration) :=
        mul_nonneg hi (div_nonneg hpos.le hd.le)
      rw [ht, hx, hy]
      exact ⟨scaled_random_bound rX _ hrX0 hrX1 hE, scaled_random_bound rY _ hrY0 hrY1 hE⟩
    · have h0 := camera_update_nonpos c targetX dt rX rY (not_lt.mp hg)
      rw [h0.1] at hpos
      exact absurd hpos hg

theorem shake_offset_envelope_witness :
    (camC8.shake 3 (1 / 5)).shakeTimer = 1 / 5 ∧
    ((camC8.update 0 (1 / 10) 1 0).shakeIntensity = camC8.shakeIntensity ∧
      (camC8.update 0 (1 / 10) 1 0).shakeDuration = camC8.shakeDuration) ∧
    (camC8.shakeTimer ≤ 0 →
      (camC8.update 0 (1 / 10) 1 0).shakeOffsetX = 0 ∧
      (camC8.update 0 (1 / 10) 1 0).shakeOffsetY = 0) ∧
    (0 < (camC8.update 0 (1 / 10) 1 0).shakeTimer →
      |(camC8.update 0 (1 / 10) 1 0).shakeOffsetX|
          ≤ camC8.shakeIntensity * ((camC8.update 0 (1 / 10) 1 0).shakeTimer / camC8.shakeDuration) ∧
      |(camC8.update 0 (1 / 10) 1 0).shakeOffsetY|
          ≤ camC8.shakeIntensity * ((camC8.update 0 (1 / 10) 1 0).shakeTimer / camC8.shakeDuration)) :=
  shake_offset_envelope camC8 3 (1 / 5) 0 (1 / 10) 1 0
    (by norm_num [camC8]) (by norm_num [camC8]) (by norm_num) (by norm_num)
    (by norm_num) (by norm_num)

/-- C8 counterexample: on the tick where the countdown crosses zero
(intensity 3, duration 0.2, remaining 0.001 before the update, dt = 0.1,
random draw 1), the update emits offset -297/200 = -1.485: the countdown
has elapsed after the decrement yet the offset is nonzero, and its
magnitude also exceeds intensity * (remaining/duration) = 0.015 for the
pre-update reading of remaining — so the claimed dichotomy fails under
either reading. -/
theorem shake_crossing_tick_counterexample :
    0 < camC8cross.shakeTimer ∧
    (camC8cross.update 0 (1 / 10) 1 0).shakeTimer ≤ 0 ∧
    (camC8cross.update 0 (1 / 10) 1 0).shakeOffsetX = -(297 / 200) ∧
    ¬ ((camC8cross.update 0 (1 / 10) 1 0).shakeOffsetX = 0) ∧
    ¬ (|(camC8cross.update 0 (1 / 10) 1 0).shakeOffsetX|
        ≤ camC8cross.shakeIntensity * (camC8cross.shakeTimer / camC8cross.shakeDuration)) := by
  obtain ⟨ht, hx, hy⟩ := camera_update_pos camC8cross 0 (1 / 10) 1 0 (by norm_num [camC8cross])
  have hval : (camC8cross.update 0 (1 / 10) 1 0).shakeOffsetX = -(297 / 200) := by
    rw [hx]
    norm_num [camC8cross]
  refine ⟨by norm_num [camC8cross], ?_, hval, ?_, ?_⟩
  · rw [ht]
    norm_num [camC8cross]
  · rw [hval]
    norm_num
  · rw [hval, abs_neg, abs_of_nonneg (by norm_num : (0 : ℚ) ≤ 297 / 200)]
    norm_num [camC8cross]

/-- C9: velocityX is recomputed from the input alone every tick and
applied to x before constraint, with no dependence on the
grounded/airborne mode. -/
theorem velocity_set_directly_from_input (inp : InputManager) (cs : CollisionSystem)
    (dt : ℚ) (p : Player) :
    (Player.update inp cs dt p).velocityX =
      (if inp.isMovingRight then
        (if inp.isSprinting then p.speed * p.sprintMultiplier else p.speed)
      else if inp.isMovingLeft then
        -(if inp.isSprinting then p.speed * p.sprintMultiplier else p.speed)
      else 0) ∧
    (Player.update inp cs dt p).x =
      (cs.constrainPlayer (p.x + (Player.update inp cs dt p).velocityX * dt) p.width).1 := by
  refine ⟨?_, ?_⟩
  · rw [update_velocityX_eq, horiz_velocityX]
  · rw [update_x_eq, horiz_x, update_velocityX_eq]

end Portfolio
